import Mathlib

/-!
Verification development for the norte routing library.

The definitions below are a shallow embedding of `src/router.ts`,
`src/error.ts` and `src/norte.ts`: the domain-to-route compiler
(parameter-name and path derivation, parameter schemas), the
`NorteError` value, and the per-operation request pipeline
(auth gate → parameter validation → body validation → handler →
result validation → response).  JavaScript strings are modelled with
Lean `String`, JSON values with the inductive `JsVal`, and the absent
`details` key with `Option`.
-/

namespace Norte

/-- JSON-ish JavaScript runtime value, as far as the pipeline inspects it.
`vobj` field order mirrors the order keys are assigned in the source. -/
inductive JsVal where
  | vnull
  | vbool (b : Bool)
  | vnum (n : Int)
  | vstr (s : String)
  | vobj (fields : List (String × JsVal))
  | varr (elems : List JsVal)

/-- JavaScript truthiness, for the `if (result.details)` checks. -/
def truthy : JsVal → Bool
  | .vnull => false
  | .vbool b => b
  | .vnum n => n != 0
  | .vstr s => s != ""
  | .vobj _ => true
  | .varr _ => true

/-- Whether a JSON object has a given key (`"k" in obj`). -/
def JsVal.hasKey : JsVal → String → Bool
  | .vobj fields, k => fields.any (fun f => f.fst == k)
  | _, _ => false

/-- Read a key from a JSON object (`obj.k`), `none` when absent. -/
def JsVal.getKey : JsVal → String → Option JsVal
  | .vobj fields, k => (fields.find? (fun f => f.fst == k)).map Prod.snd
  | _, _ => none

/-- JavaScript `s.endsWith(p)`. -/
def strEndsWith (s p : String) : Bool :=
  let sl := s.toList
  let pl := p.toList
  pl.length ≤ sl.length && (sl.drop (sl.length - pl.length)) == pl

/-- JavaScript `s.slice(0, -n)`: drop the last `n` characters. -/
def strDropRight (s : String) (n : Nat) : String :=
  String.mk (s.toList.take (s.toList.length - n))

/-! ## error.ts -/

/-- The closed `ErrorCode` union of `src/error.ts`. -/
inductive ErrorCode where
  | NOT_FOUND
  | INVALID_INPUT
  | UNAUTHORIZED
  | FORBIDDEN
  | CONFLICT
  | INTERNAL_SERVER_ERROR
deriving DecidableEq

/-- The string literal an `ErrorCode` stands for in the source. -/
def ErrorCode.str : ErrorCode → String
  | .NOT_FOUND => "NOT_FOUND"
  | .INVALID_INPUT => "INVALID_INPUT"
  | .UNAUTHORIZED => "UNAUTHORIZED"
  | .FORBIDDEN => "FORBIDDEN"
  | .CONFLICT => "CONFLICT"
  | .INTERNAL_SERVER_ERROR => "INTERNAL_SERVER_ERROR"

/-- The `statusMap` table built in the `NorteError` constructor. -/
def statusMap : ErrorCode → Nat
  | .NOT_FOUND => 404
  | .INVALID_INPUT => 400
  | .UNAUTHORIZED => 401
  | .FORBIDDEN => 403
  | .CONFLICT => 409
  | .INTERNAL_SERVER_ERROR => 500

/-- `NorteError` of `src/error.ts`: `code`, `message`, optional `details`
(`none` models the `details` argument not being passed). -/
structure NorteError where
  code : ErrorCode
  message : String
  details : Option JsVal := none

/-- `this.statusCode = statusMap[code]` — derived, not independently stored. -/
def NorteError.statusCode (e : NorteError) : Nat := statusMap e.code

/-! ## router.ts — domain-to-route derivation -/

/-- A router with its parent chain: `Router.parent` is `root` for
`new Router(domain, config)` and `nested` for `new Router(parent, domain, config)`. -/
inductive RouterChain where
  | root (domain : String)
  | nested (parent : RouterChain) (domain : String)

/-- The router's own `domain` field. -/
def RouterChain.domain : RouterChain → String
  | .root d => d
  | .nested _ d => d

/-- `Router.getDomainParam` from `src/router.ts`:
singularize the domain name and append `"Id"`. -/
def getDomainParam (domain : String) : String :=
  let singular :=
    if strEndsWith domain "ies" then strDropRight domain 3 ++ "y"
    else if strEndsWith domain "s" then strDropRight domain 1
    else domain
  singular ++ "Id"

/-- `Router.getFullPath`: root path is `/domain`; a nested path is the
parent path, `/:parentParam`, then `/domain`. -/
def RouterChain.getFullPath : RouterChain → String
  | .root d => "/" ++ d
  | .nested p d => p.getFullPath ++ "/:" ++ getDomainParam p.domain ++ "/" ++ d

/-- `Router.getParentParams`: derived parameter names of the ancestor chain,
root first. -/
def RouterChain.getParentParams : RouterChain → List String
  | .root _ => []
  | .nested p _ => p.getParentParams ++ [getDomainParam p.domain]

/-- The validator `z.string().cuid2()` attaches to every path parameter. -/
def isCuid2 (s : String) : Bool :=
  match s.toList with
  | [] => false
  | c :: rest => c.isLower && rest.all (fun ch => ch.isLower || ch.isDigit)

/-- `z.string().cuid2()` as a string validator. -/
def zStringCuid2 : String → Bool := isCuid2

/-- `Router.getParameterSchema`: one `z.string().cuid2()` entry per parent
parameter (used by list/create). -/
def getParameterSchema (r : RouterChain) : List (String × (String → Bool)) :=
  r.getParentParams.map (fun p => (p, zStringCuid2))

/-- `Router.getParameterSchemaWithId`: the parent parameters plus the literal
key `"id"` (used by read/update/delete), each validated by `z.string().cuid2()`. -/
def getParameterSchemaWithId (r : RouterChain) : List (String × (String → Bool)) :=
  (r.getParentParams ++ ["id"]).map (fun p => (p, zStringCuid2))

/-- Path template of `Router.getReadRoute`: `` `${this.path}/:id` ``. -/
def readRoutePath (r : RouterChain) : String := r.getFullPath ++ "/:id"

/-! ## router.ts — request pipeline -/

/-- An inbound request as the pipeline sees it: the session resolved by the
auth middleware of `norte.ts` (null on absent or invalid credentials), the
raw path parameters, and the JSON body. -/
structure Request where
  session : Option Unit
  params : List (String × String)
  body : JsVal

/-- An HTTP response: status plus optional JSON body
(`none` models `c.body(null, ...)`). -/
structure Response where
  status : Nat
  body : Option JsVal

/-- A pipeline run: the response produced, plus whether the
application-supplied handler was ever invoked. -/
structure RunResult where
  response : Response
  handlerInvoked : Bool

/-- What an application handler did: returned a value, returned a
`NorteError`, threw a `NorteError`, threw some other `Error` carrying a
message, or threw a non-`Error` value. -/
inductive HandlerOutcome where
  | ok (v : JsVal)
  | err (e : NorteError)
  | raiseNorte (e : NorteError)
  | raiseError (msg : String)
  | raiseOther

/-- `c.req.param(name)` lookup in the matched path parameters. -/
def lookupStr (params : List (String × String)) (k : String) : Option String :=
  (params.find? (fun p => p.fst == k)).map Prod.snd

/-- The parameter-extraction loop shared by the five operations: for each
name, keep the value when present and truthy (`if (value)`). -/
def extractParams (names : List String) (params : List (String × String)) :
    List (String × String) :=
  names.filterMap fun n =>
    match lookupStr params n with
    | some v => if v == "" then none else some (n, v)
    | none => none

/-- The `param` object of read/update/delete: `{ id }` from
`c.req.valid('param')`, then the parent parameters. -/
def instanceParams (chain : RouterChain) (req : Request) :
    List (String × String) :=
  ("id", (lookupStr req.params "id").getD "") ::
    extractParams chain.getParentParams req.params

/-- Validate path parameters against a generated parameter schema: every key
must be present and pass its validator. -/
def validateParams (schema : List (String × (String → Bool)))
    (params : List (String × String)) : Bool :=
  schema.all fun kv =>
    match lookupStr params kv.fst with
    | some v => kv.snd v
    | none => false

/-- The body of `Router.privateMiddleware`:
`c.json({ error: 'UNAUTHORIZED' }, 401)` when the session is null. -/
def unauthorizedResponse : Response :=
  ⟨401, some (.vobj [("error", .vstr "UNAUTHORIZED")])⟩

/-- Modelled from the spec: the schema-validation collaborator rejects a
request whose path parameters fail the generated schema before the route
handler runs (spec §4.2 step 2); only its status and the skipped handler
are relied on here. -/
def frameworkParamReject : Response :=
  ⟨400, some (.vobj [("success", .vbool false)])⟩

/-- The error-response object built for a `NorteError`:
`{ error, message }`, with `details` added only when truthy
(`if (result.details)`). -/
def createErrorResponse (e : NorteError) : JsVal :=
  .vobj ([("error", .vstr e.code.str), ("message", .vstr e.message)] ++
    match e.details with
    | some d => if truthy d then [("details", d)] else []
    | none => [])

/-- `c.json(createErrorResponse(e), e.statusCode)`. -/
def norteResponse (e : NorteError) : Response :=
  ⟨e.statusCode, some (createErrorResponse e)⟩

/-- `c.json({ error: 'INVALID_INPUT', details }, 400)`. -/
def invalidInputResponse (zerr : JsVal) : Response :=
  ⟨400, some (.vobj [("error", .vstr "INVALID_INPUT"), ("details", zerr)])⟩

/-- `c.json({ error: 'INVALID_DATA', details }, 400)`. -/
def invalidDataResponse (zerr : JsVal) : Response :=
  ⟨400, some (.vobj [("error", .vstr "INVALID_DATA"), ("details", zerr)])⟩

/-- `c.json({ error: 'INTERNAL_SERVER_ERROR', details: error.message }, 500)`. -/
def internalErrorResponse (m : String) : Response :=
  ⟨500, some (.vobj [("error", .vstr "INTERNAL_SERVER_ERROR"),
    ("details", .vstr m)])⟩

/-- `c.json({ error: 'INTERNAL_SERVER_ERROR' }, 500)` for a thrown non-Error. -/
def internalBareResponse : Response :=
  ⟨500, some (.vobj [("error", .vstr "INTERNAL_SERVER_ERROR")])⟩

/-- The shared tail of list/create/read/update: branch on the handler
outcome — `NorteError` translation, response-schema validation
(`safeParse`, abstracted as `schemaParse`), success wrapping
`{ data }` at `okStatus`, and the catch clauses. -/
def resultToResponse (schemaParse : JsVal → Except JsVal JsVal)
    (okStatus : Nat) : HandlerOutcome → Response
  | .ok v =>
    match schemaParse v with
    | .error zerr => invalidDataResponse zerr
    | .ok d => ⟨okStatus, some (.vobj [("data", d)])⟩
  | .err e => norteResponse e
  | .raiseNorte e => norteResponse e
  | .raiseError m => internalErrorResponse m
  | .raiseOther => internalBareResponse

/-- The tail of `Router.delete`: no response-schema validation; any
non-error outcome yields `c.body(null, 204)`. -/
def deleteResultToResponse : HandlerOutcome → Response
  | .ok _ => ⟨204, none⟩
  | .err e => norteResponse e
  | .raiseNorte e => norteResponse e
  | .raiseError m => internalErrorResponse m
  | .raiseOther => internalBareResponse

/-- `Router.list`: auth gate (route middleware, registered before the
validators) unless public; parameter validation only when parent parameters
exist (`listDefinition`); then the handler with the parent parameters and
`z.array(this.schema).safeParse` (abstracted as `listParse`) on its result. -/
def runList (isPublic : Bool) (req : Request) (chain : RouterChain)
    (listParse : JsVal → Except JsVal JsVal)
    (handler : List (String × String) → HandlerOutcome) : RunResult :=
  if !isPublic && req.session.isNone then ⟨unauthorizedResponse, false⟩
  else if !chain.getParentParams.isEmpty &&
      !validateParams (getParameterSchema chain) req.params then
    ⟨frameworkParamReject, false⟩
  else
    ⟨resultToResponse listParse 200
      (handler (extractParams chain.getParentParams req.params)), true⟩

/-- `Router.create`: auth gate; parameter validation only when parent
parameters exist (`createDefinition`); `config.input.safeParse` on the body
(`inputParse`), rejecting with `INVALID_INPUT` before the handler; then the
handler and `this.schema.safeParse` (`schemaParse`), succeeding at 201. -/
def runCreate (isPublic : Bool) (req : Request) (chain : RouterChain)
    (inputParse schemaParse : JsVal → Except JsVal JsVal)
    (handler : JsVal → List (String × String) → HandlerOutcome) : RunResult :=
  if !isPublic && req.session.isNone then ⟨unauthorizedResponse, false⟩
  else if !chain.getParentParams.isEmpty &&
      !validateParams (getParameterSchema chain) req.params then
    ⟨frameworkParamReject, false⟩
  else
    match inputParse req.body with
    | .error zerr => ⟨invalidInputResponse zerr, false⟩
    | .ok input =>
      ⟨resultToResponse schemaParse 201
        (handler input (extractParams chain.getParentParams req.params)), true⟩

/-- `Router.update`: auth gate; parameters validated against
`getParameterSchemaWithId` (`getUpdateRoute`); body validated like create;
succeeds at 200. -/
def runUpdate (isPublic : Bool) (req : Request) (chain : RouterChain)
    (inputParse schemaParse : JsVal → Except JsVal JsVal)
    (handler : JsVal → List (String × String) → HandlerOutcome) : RunResult :=
  if !isPublic && req.session.isNone then ⟨unauthorizedResponse, false⟩
  else if !validateParams (getParameterSchemaWithId chain) req.params then
    ⟨frameworkParamReject, false⟩
  else
    match inputParse req.body with
    | .error zerr => ⟨invalidInputResponse zerr, false⟩
    | .ok input =>
      ⟨resultToResponse schemaParse 200
        (handler input (instanceParams chain req)), true⟩

/-- `Router.read`: auth gate; parameters validated against
`getParameterSchemaWithId` (`getReadRoute`); then the handler and
`this.schema.safeParse`, succeeding at 200. -/
def runRead (isPublic : Bool) (req : Request) (chain : RouterChain)
    (schemaParse : JsVal → Except JsVal JsVal)
    (handler : List (String × String) → HandlerOutcome) : RunResult :=
  if !isPublic && req.session.isNone then ⟨unauthorizedResponse, false⟩
  else if !validateParams (getParameterSchemaWithId chain) req.params then
    ⟨frameworkParamReject, false⟩
  else
    ⟨resultToResponse schemaParse 200
      (handler (instanceParams chain req)), true⟩

/-- `Router.delete`: auth gate; parameters validated against
`getParameterSchemaWithId` (`getDeleteRoute`); any non-error handler
outcome yields 204 with an empty body. -/
def runDelete (isPublic : Bool) (req : Request) (chain : RouterChain)
    (handler : List (String × String) → HandlerOutcome) : RunResult :=
  if !isPublic && req.session.isNone then ⟨unauthorizedResponse, false⟩
  else if !validateParams (getParameterSchemaWithId chain) req.params then
    ⟨frameworkParamReject, false⟩
  else
    ⟨deleteResultToResponse (handler (instanceParams chain req)), true⟩

/-- The `error` field of a response body, when present. -/
def Response.errorKind (r : Response) : Option JsVal :=
  match r.body with
  | some bd => bd.getKey "error"
  | none => none

/-- The recognizable failure kinds a pipeline response may carry: the six
`ErrorCode` strings plus the internal `INVALID_DATA`. -/
def recognizedKind (s : String) : Bool :=
  s == "UNAUTHORIZED" || s == "INVALID_INPUT" || s == "INVALID_DATA" ||
  s == "INTERNAL_SERVER_ERROR" || s == "NOT_FOUND" || s == "FORBIDDEN" ||
  s == "CONFLICT"

end Norte

namespace Norte

/-- The parameter-name derivation as the specification words it, with the
length guards (`length > 3` for the `"ies"` rule, `length > 1` for the
trailing-`"s"` rule); stated for refinement comparison with
`getDomainParam`. -/
def specDomainToParam (d : String) : String :=
  let singular :=
    if strEndsWith d "ies" ∧ d.length > 3 then strDropRight d 3 ++ "y"
    else if strEndsWith d "s" ∧ d.length > 1 then strDropRight d 1
    else d
  singular ++ "Id"

/-- C1 counterexample: the code has no length guards, so at the non-empty
domain name `"s"` it produces `"Id"` while the guarded specification formula
produces `"sId"`. -/
theorem getDomainParam_guarded_spec_counterexample :
    getDomainParam "s" = "Id" ∧ specDomainToParam "s" = "sId" ∧
    getDomainParam "s" ≠ specDomainToParam "s" := by decide

/-- C1 (amended): for every non-empty domain name, `getDomainParam` replaces
an `"ies"` suffix by `"y"` (no length guard), else drops a trailing `"s"`
(no length guard), else leaves the name unchanged, and appends `"Id"`; in
particular stores ↦ storeId, categories ↦ categoryId, product ↦ productId. -/
theorem getDomainParam_suffix_rules (d : String) (hd : d ≠ "") :
    (strEndsWith d "ies" = true →
      getDomainParam d = strDropRight d 3 ++ "y" ++ "Id") ∧
    (strEndsWith d "ies" = false → strEndsWith d "s" = true →
      getDomainParam d = strDropRight d 1 ++ "Id") ∧
    (strEndsWith d "ies" = false → strEndsWith d "s" = false →
      getDomainParam d = d ++ "Id") ∧
    getDomainParam "stores" = "storeId" ∧
    getDomainParam "categories" = "categoryId" ∧
    getDomainParam "product" = "productId" := by
  refine ⟨?_, ?_, ?_, by decide, by decide, by decide⟩
  · intro h1
    simp [getDomainParam, h1]
  · intro h1 h2
    simp [getDomainParam, h1, h2]
  · intro h1 h2
    simp [getDomainParam, h1, h2]

/-- Witness for C1 (amended) at the concrete domain name `"stores"`. -/
theorem getDomainParam_suffix_rules_witness :
    ("stores" : String) ≠ "" ∧
    (strEndsWith "stores" "ies" = false → strEndsWith "stores" "s" = true →
      getDomainParam "stores" = strDropRight "stores" 1 ++ "Id") :=
  ⟨by decide, (getDomainParam_suffix_rules "stores" (by decide)).2.1⟩

/-- The three-level chain stores → products → variants. -/
def variantsChain : RouterChain :=
  .nested (.nested (.root "stores") "products") "variants"

/-- C2 counterexample: the read route of the stores → products → variants
chain ends in `/:id`, not `/:variantId`, and its parameter schema has no
`variantId` key. -/
theorem readRoute_variantId_counterexample :
    readRoutePath variantsChain ≠
      "/stores/:storeId/products/:productId/variants/:variantId" ∧
    ((getParameterSchemaWithId variantsChain).map Prod.fst).contains
      "variantId" = false := by
  constructor
  · decide
  · rfl

/-- C2 (amended): for the 3-level chain stores → products → variants the
read route's path template is
`/stores/:storeId/products/:productId/variants/:id`, and its
path-parameter schema requires exactly the keys storeId, productId and the
literal `id` (ancestor-derived names plus `id`). -/
theorem readRoute_nested_chain_id :
    readRoutePath variantsChain =
      "/stores/:storeId/products/:productId/variants/:id" ∧
    (getParameterSchemaWithId variantsChain).map Prod.fst =
      ["storeId", "productId", "id"] := ⟨rfl, rfl⟩

end Norte

namespace Norte

/-- C3: for any operation registered without `isPublic`, a request whose
resolved session is null is answered by the route middleware with 401 and
body `error: UNAUTHORIZED`, the handler is never invoked, and — since the
middleware is registered before the validators — this holds for arbitrary
(even invalid) path parameters and body. -/
theorem auth_gate_short_circuit
    (req : Request) (chain : RouterChain)
    (lp ip sp : JsVal → Except JsVal JsVal)
    (lh rh dh : List (String × String) → HandlerOutcome)
    (ch uh : JsVal → List (String × String) → HandlerOutcome)
    (hs : req.session = none) :
    runList false req chain lp lh = ⟨unauthorizedResponse, false⟩ ∧
    runCreate false req chain ip sp ch = ⟨unauthorizedResponse, false⟩ ∧
    runUpdate false req chain ip sp uh = ⟨unauthorizedResponse, false⟩ ∧
    runRead false req chain sp rh = ⟨unauthorizedResponse, false⟩ ∧
    runDelete false req chain dh = ⟨unauthorizedResponse, false⟩ := by
  refine ⟨?_, ?_, ?_, ?_, ?_⟩ <;>
    simp [runList, runCreate, runUpdate, runRead, runDelete, hs]

/-- Witness for C3 at a concrete sessionless request. -/
theorem auth_gate_short_circuit_witness :
    (Request.session ⟨none, [], .vnull⟩ = none) ∧
    runRead false ⟨none, [], .vnull⟩ (.root "stores") (fun v => .ok v)
      (fun _ => .ok .vnull) = ⟨unauthorizedResponse, false⟩ :=
  ⟨rfl, (auth_gate_short_circuit ⟨none, [], .vnull⟩ (.root "stores")
    (fun v => .ok v) (fun v => .ok v) (fun v => .ok v)
    (fun _ => .ok .vnull) (fun _ => .ok .vnull) (fun _ => .ok .vnull)
    (fun _ _ => .ok .vnull) (fun _ _ => .ok .vnull) rfl).2.2.2.1⟩

/-- C4: a `NorteError`'s `statusCode` is exactly `statusMap` of its code,
depends on nothing but the code, the table maps the six kinds to
400/401/403/404/409/500, and the kind enumeration is closed. -/
theorem norteError_statusCode_mapping :
    (∀ (c : ErrorCode) (m m2 : String) (d d2 : Option JsVal),
      (NorteError.mk c m d).statusCode = statusMap c ∧
      (NorteError.mk c m d).statusCode = (NorteError.mk c m2 d2).statusCode) ∧
    statusMap .INVALID_INPUT = 400 ∧ statusMap .UNAUTHORIZED = 401 ∧
    statusMap .FORBIDDEN = 403 ∧ statusMap .NOT_FOUND = 404 ∧
    statusMap .CONFLICT = 409 ∧ statusMap .INTERNAL_SERVER_ERROR = 500 ∧
    (∀ c : ErrorCode, c = .NOT_FOUND ∨ c = .INVALID_INPUT ∨
      c = .UNAUTHORIZED ∨ c = .FORBIDDEN ∨ c = .CONFLICT ∨
      c = .INTERNAL_SERVER_ERROR) :=
  ⟨fun c m m2 d d2 => ⟨rfl, rfl⟩, rfl, rfl, rfl, rfl, rfl, rfl,
    fun c => by cases c <;> simp⟩

/-- C5: for each of the five operations, a handler returning a `NorteError`
and a handler raising the same `NorteError` produce identical responses —
status `e.statusCode` with the `createErrorResponse` body — for every
response-schema parser (so response-schema validation is bypassed). -/
theorem returned_raised_error_equivalence
    (e : NorteError) (b : Bool) (req : Request) (chain : RouterChain)
    (lp ip sp : JsVal → Except JsVal JsVal) (w : JsVal)
    (hauth : (!b && req.session.isNone) = false)
    (hpl : validateParams (getParameterSchema chain) req.params = true)
    (hpw : validateParams (getParameterSchemaWithId chain) req.params = true)
    (hi : ip req.body = .ok w) :
    (runList b req chain lp (fun _ => .err e) =
       runList b req chain lp (fun _ => .raiseNorte e) ∧
     runList b req chain lp (fun _ => .err e) = ⟨norteResponse e, true⟩) ∧
    (runCreate b req chain ip sp (fun _ _ => .err e) =
       runCreate b req chain ip sp (fun _ _ => .raiseNorte e) ∧
     runCreate b req chain ip sp (fun _ _ => .err e) = ⟨norteResponse e, true⟩) ∧
    (runUpdate b req chain ip sp (fun _ _ => .err e) =
       runUpdate b req chain ip sp (fun _ _ => .raiseNorte e) ∧
     runUpdate b req chain ip sp (fun _ _ => .err e) = ⟨norteResponse e, true⟩) ∧
    (runRead b req chain sp (fun _ => .err e) =
       runRead b req chain sp (fun _ => .raiseNorte e) ∧
     runRead b req chain sp (fun _ => .err e) = ⟨norteResponse e, true⟩) ∧
    (runDelete b req chain (fun _ => .err e) =
       runDelete b req chain (fun _ => .raiseNorte e) ∧
     runDelete b req chain (fun _ => .err e) = ⟨norteResponse e, true⟩) := by
  refine ⟨⟨?_, ?_⟩, ⟨?_, ?_⟩, ⟨?_, ?_⟩, ⟨?_, ?_⟩, ⟨?_, ?_⟩⟩ <;>
    simp [runList, runCreate, runUpdate, runRead, runDelete, hauth, hpl, hpw,
      hi, resultToResponse, deleteResultToResponse]

/-- Witness for C5 at a concrete error, request and chain. -/
theorem returned_raised_error_equivalence_witness :
    ((!true && Option.isNone (Request.session ⟨some (), [("id", "a1")], .vnull⟩)) = false) ∧
    (validateParams (getParameterSchema (.root "stores")) [("id", "a1")] = true) ∧
    (validateParams (getParameterSchemaWithId (.root "stores")) [("id", "a1")] = true) ∧
    (runRead true ⟨some (), [("id", "a1")], .vnull⟩ (.root "stores")
        (fun v => Except.ok v) (fun _ => .err ⟨.NOT_FOUND, "x", none⟩) =
      ⟨norteResponse ⟨.NOT_FOUND, "x", none⟩, true⟩) := by
  refine ⟨by decide, by decide, by decide, ?_⟩
  exact (returned_raised_error_equivalence ⟨.NOT_FOUND, "x", none⟩ true
    ⟨some (), [("id", "a1")], .vnull⟩ (.root "stores")
    (fun v => Except.ok v) (fun v => Except.ok v) (fun v => Except.ok v)
    .vnull (by decide) (by decide) (by decide) rfl).2.2.2.1.2

end Norte

namespace Norte

/-- C6: for create and update, a body failing the `config.input` schema
(`inputParse` yields a zod error) is answered with 400,
`error: INVALID_INPUT` and the zod error under `details`, and the handler
is not invoked. -/
theorem invalid_input_rejection
    (b : Bool) (req : Request) (chain : RouterChain)
    (ip sp : JsVal → Except JsVal JsVal) (zerr : JsVal)
    (ch uh : JsVal → List (String × String) → HandlerOutcome)
    (hauth : (!b && req.session.isNone) = false)
    (hpl : validateParams (getParameterSchema chain) req.params = true)
    (hpw : validateParams (getParameterSchemaWithId chain) req.params = true)
    (hi : ip req.body = .error zerr) :
    runCreate b req chain ip sp ch = ⟨invalidInputResponse zerr, false⟩ ∧
    runUpdate b req chain ip sp uh = ⟨invalidInputResponse zerr, false⟩ ∧
    (invalidInputResponse zerr).status = 400 ∧
    (invalidInputResponse zerr).body = some (.vobj
      [("error", .vstr "INVALID_INPUT"), ("details", zerr)]) := by
  refine ⟨?_, ?_, rfl, rfl⟩ <;>
    simp [runCreate, runUpdate, hauth, hpl, hpw, hi]

/-- Witness for C6 at a concrete malformed body. -/
theorem invalid_input_rejection_witness :
    ((!true && Option.isNone (Request.session ⟨some (), [("id", "a1")], .vnull⟩)) = false) ∧
    runCreate true ⟨some (), [("id", "a1")], .vnull⟩ (.root "stores")
      (fun _ => Except.error (JsVal.vstr "issues")) (fun v => Except.ok v)
      (fun _ _ => .ok .vnull) =
      ⟨invalidInputResponse (JsVal.vstr "issues"), false⟩ := by
  refine ⟨by decide, ?_⟩
  exact (invalid_input_rejection true ⟨some (), [("id", "a1")], .vnull⟩
    (.root "stores") (fun _ => Except.error (JsVal.vstr "issues"))
    (fun v => Except.ok v) (JsVal.vstr "issues")
    (fun _ _ => .ok .vnull) (fun _ _ => .ok .vnull)
    (by decide) (by decide) (by decide) rfl).1

/-- C7: an error response built from a `NorteError` with no supplied details
never has a `details` key; concretely, a handler returning
`NorteError('NOT_FOUND', 'x not found')` yields exactly status 404 with body
`error: NOT_FOUND, message: x not found` and no `details` key. -/
theorem not_found_response_shape :
    (∀ (c : ErrorCode) (m : String),
      (createErrorResponse ⟨c, m, none⟩).hasKey "details" = false) ∧
    norteResponse ⟨.NOT_FOUND, "x not found", none⟩ =
      ⟨404, some (.vobj [("error", .vstr "NOT_FOUND"),
        ("message", .vstr "x not found")])⟩ ∧
    runRead true ⟨some (), [("id", "a1")], .vnull⟩ (.root "stores")
      (fun v => Except.ok v) (fun _ => .err ⟨.NOT_FOUND, "x not found", none⟩) =
      ⟨⟨404, some (.vobj [("error", .vstr "NOT_FOUND"),
        ("message", .vstr "x not found")])⟩, true⟩ :=
  ⟨fun _ _ => rfl, rfl, rfl⟩

/-- C9: a delete whose auth gate and parameter validation pass and whose
handler completes with any non-error value is answered 204 with an empty
body, regardless of that value. -/
theorem delete_success_204
    (b : Bool) (req : Request) (chain : RouterChain) (v : JsVal)
    (dh : List (String × String) → HandlerOutcome)
    (hauth : (!b && req.session.isNone) = false)
    (hpw : validateParams (getParameterSchemaWithId chain) req.params = true)
    (hok : dh (instanceParams chain req) = .ok v) :
    runDelete b req chain dh = ⟨⟨204, none⟩, true⟩ := by
  simp [runDelete, hauth, hpw, deleteResultToResponse, hok]

/-- Witness for C9 at a concrete request whose handler returns a
(non-undefined) object. -/
theorem delete_success_204_witness :
    ((!true && Option.isNone (Request.session ⟨some (), [("id", "a1")], .vnull⟩)) = false) ∧
    (validateParams (getParameterSchemaWithId (.root "stores")) [("id", "a1")] = true) ∧
    runDelete true ⟨some (), [("id", "a1")], .vnull⟩ (.root "stores")
      (fun _ => .ok (.vobj [("ignored", .vbool true)])) = ⟨⟨204, none⟩, true⟩ :=
  ⟨by decide, by decide,
    delete_success_204 true ⟨some (), [("id", "a1")], .vnull⟩ (.root "stores")
      (.vobj [("ignored", .vbool true)])
      (fun _ => .ok (.vobj [("ignored", .vbool true)]))
      (by decide) (by decide) rfl⟩

end Norte

namespace Norte

/-- The `error` field of a `norteResponse` is the error's code string. -/
theorem errorKind_norteResponse (e : NorteError) :
    (norteResponse e).errorKind = some (.vstr e.code.str) := by
  simp [norteResponse, Response.errorKind, createErrorResponse, JsVal.getKey]

/-- Every `ErrorCode` string is a recognizable failure kind. -/
theorem recognizedKind_code (c : ErrorCode) : recognizedKind c.str = true := by
  cases c <;> decide

/-- C8 counterexample: a handler throwing a generic `Error` under a valid
session yields a failure response (status 500) whose JSON body has no
`message` key — the exception message travels under `details` instead. -/
theorem failure_message_key_counterexample :
    400 ≤ (runList true ⟨some (), [], .vnull⟩ (.root "stores")
      (fun v => Except.ok v) (fun _ => .raiseError "boom")).response.status ∧
    ((runList true ⟨some (), [], .vnull⟩ (.root "stores")
      (fun v => Except.ok v) (fun _ => .raiseError "boom")).response.body.map
        (fun bd => bd.hasKey "message")) = some false ∧
    ((runList true ⟨some (), [], .vnull⟩ (.root "stores")
      (fun v => Except.ok v) (fun _ => .raiseError "boom")).response.body.map
        (fun bd => bd.getKey "details")) = some (some (.vstr "boom")) := by
  refine ⟨by decide, rfl, rfl⟩

/-- C8 (amended): every failure response (status ≥ 400) the core list
pipeline produces carries a recognizable kind under its `error` key, and an
unexpected raised `Error` produces exactly
`error: INTERNAL_SERVER_ERROR, details: <bare exception message>` — no
stack trace, and the message under `details` rather than `message`. -/
theorem failure_response_recognizable_kind
    (b : Bool) (req : Request) (chain : RouterChain)
    (lp : JsVal → Except JsVal JsVal)
    (h : List (String × String) → HandlerOutcome)
    (hpl : validateParams (getParameterSchema chain) req.params = true) :
    (400 ≤ (runList b req chain lp h).response.status →
      ∃ s, (runList b req chain lp h).response.errorKind = some (.vstr s) ∧
        recognizedKind s = true) ∧
    ((runList b req chain lp h).handlerInvoked = true →
      ∀ m, h (extractParams chain.getParentParams req.params) = .raiseError m →
        (runList b req chain lp h).response =
          ⟨500, some (.vobj [("error", .vstr "INTERNAL_SERVER_ERROR"),
            ("details", .vstr m)])⟩) := by
  cases hb : (!b && req.session.isNone) with
  | true =>
    constructor
    · intro _
      refine ⟨"UNAUTHORIZED", ?_, by decide⟩
      simp [runList, hb, unauthorizedResponse, Response.errorKind, JsVal.getKey]
    · intro hinv
      simp [runList, hb] at hinv
  | false =>
    cases hres : h (extractParams chain.getParentParams req.params) with
    | ok v =>
      cases hlv : lp v with
      | error zerr =>
        constructor
        · intro _
          refine ⟨"INVALID_DATA", ?_, by decide⟩
          simp [runList, hb, hpl, resultToResponse, hres, hlv,
            invalidDataResponse, Response.errorKind, JsVal.getKey]
        · intro _ m hm
          exact absurd hm (by simp)
      | ok d =>
        constructor
        · intro h400
          exfalso
          have : (runList b req chain lp h).response.status = 200 := by
            simp [runList, hb, hpl, resultToResponse, hres, hlv]
          omega
        · intro _ m hm
          exact absurd hm (by simp)
    | err e =>
      constructor
      · intro _
        refine ⟨e.code.str, ?_, recognizedKind_code e.code⟩
        have : (runList b req chain lp h).response = norteResponse e := by
          simp [runList, hb, hpl, resultToResponse, hres]
        rw [this]
        exact errorKind_norteResponse e
      · intro _ m hm
        exact absurd hm (by simp)
    | raiseNorte e =>
      constructor
      · intro _
        refine ⟨e.code.str, ?_, recognizedKind_code e.code⟩
        have : (runList b req chain lp h).response = norteResponse e := by
          simp [runList, hb, hpl, resultToResponse, hres]
        rw [this]
        exact errorKind_norteResponse e
      · intro _ m hm
        exact absurd hm (by simp)
    | raiseError msg =>
      constructor
      · intro _
        refine ⟨"INTERNAL_SERVER_ERROR", ?_, by decide⟩
        simp [runList, hb, hpl, resultToResponse, hres,
          internalErrorResponse, Response.errorKind, JsVal.getKey]
      · intro _ m hm
        cases hm
        simp [runList, hb, hpl, resultToResponse, hres, internalErrorResponse]
    | raiseOther =>
      constructor
      · intro _
        refine ⟨"INTERNAL_SERVER_ERROR", ?_, by decide⟩
        simp [runList, hb, hpl, resultToResponse, hres,
          internalBareResponse, Response.errorKind, JsVal.getKey]
      · intro _ m hm
        exact absurd hm (by simp)

/-- Witness for C8 (amended): the sessionless private list request. -/
theorem failure_response_recognizable_kind_witness :
    (validateParams (getParameterSchema (.root "stores")) [] = true) ∧
    (400 ≤ (runList false ⟨none, [], .vnull⟩ (.root "stores")
        (fun v => Except.ok v) (fun _ => .ok .vnull)).response.status →
      ∃ s, (runList false ⟨none, [], .vnull⟩ (.root "stores")
        (fun v => Except.ok v) (fun _ => .ok .vnull)).response.errorKind =
          some (.vstr s) ∧ recognizedKind s = true) :=
  ⟨by decide, (failure_response_recognizable_kind false ⟨none, [], .vnull⟩
    (.root "stores") (fun v => Except.ok v) (fun _ => .ok .vnull)
    (by decide)).1⟩

end Norte

namespace Norte

/-- A parameter set whose `id` value fails the cuid2 validator fails
validation against any `getParameterSchemaWithId` schema. -/
theorem validateParams_id_fail (chain : RouterChain)
    (params : List (String × String)) (s : String)
    (hid : lookupStr params "id" = some s) (hbad : isCuid2 s = false) :
    validateParams (getParameterSchemaWithId chain) params = false := by
  cases hall : validateParams (getParameterSchemaWithId chain) params with
  | false => rfl
  | true =>
    exfalso
    have hmem : ("id", zStringCuid2) ∈ getParameterSchemaWithId chain :=
      List.mem_map.mpr ⟨"id", by simp, rfl⟩
    unfold validateParams at hall
    have h1 := List.all_eq_true.mp hall _ hmem
    simp only [hid] at h1
    simp [zStringCuid2, hbad] at h1

/-- C10: every entry of both generated parameter schemas carries the
`z.string().cuid2()` validator, and an instance request whose `id` value is
not a valid cuid2 never reaches the application handler (when the auth gate
passes, the response is the framework's validation rejection). -/
theorem param_schema_cuid2
    (chain : RouterChain) (b : Bool) (req : Request)
    (ip sp : JsVal → Except JsVal JsVal)
    (rh dh : List (String × String) → HandlerOutcome)
    (uh : JsVal → List (String × String) → HandlerOutcome)
    (s : String)
    (hid : lookupStr req.params "id" = some s)
    (hbad : isCuid2 s = false) :
    (∀ kv ∈ getParameterSchema chain, kv.2 = zStringCuid2) ∧
    (∀ kv ∈ getParameterSchemaWithId chain, kv.2 = zStringCuid2) ∧
    (runRead b req chain sp rh).handlerInvoked = false ∧
    (runUpdate b req chain ip sp uh).handlerInvoked = false ∧
    (runDelete b req chain dh).handlerInvoked = false ∧
    ((!b && req.session.isNone) = false →
      (runRead b req chain sp rh).response = frameworkParamReject) := by
  have hv := validateParams_id_fail chain req.params s hid hbad
  refine ⟨?_, ?_, ?_, ?_, ?_, ?_⟩
  · intro kv hkv
    obtain ⟨a, _, rfl⟩ := List.mem_map.mp hkv
    rfl
  · intro kv hkv
    obtain ⟨a, _, rfl⟩ := List.mem_map.mp hkv
    rfl
  · cases hb : (!b && req.session.isNone) <;> simp [runRead, hb, hv]
  · cases hb : (!b && req.session.isNone) <;> simp [runUpdate, hb, hv]
  · cases hb : (!b && req.session.isNone) <;> simp [runDelete, hb, hv]
  · intro hb
    simp [runRead, hb, hv]

/-- Witness for C10 at a concrete non-cuid2 `id` value. -/
theorem param_schema_cuid2_witness :
    (lookupStr [("id", "NOTCUID")] "id" = some "NOTCUID") ∧
    (isCuid2 "NOTCUID" = false) ∧
    (runRead true ⟨some (), [("id", "NOTCUID")], .vnull⟩ (.root "stores")
      (fun v => Except.ok v) (fun _ => .ok .vnull)).handlerInvoked = false :=
  ⟨by decide, by decide,
    (param_schema_cuid2 (.root "stores") true
      ⟨some (), [("id", "NOTCUID")], .vnull⟩
      (fun v => Except.ok v) (fun v => Except.ok v)
      (fun _ => .ok .vnull) (fun _ => .ok .vnull) (fun _ _ => .ok .vnull)
      "NOTCUID" (by decide) (by decide)).2.2.1⟩

end Norte
